import Mathlib

/-!
Shallow embedding of the tdxproxy Go package (src/tdxproxy/tdxproxy.go,
current revision: the unexported `proxy` struct with `Get`,
`requestWithRetry`, `handleResponse`, `buildAuthHeaders`, `updateAuth`).

Modelling conventions:
* Go `map[string]string` values are association lists (`SMap`); `mapSet`
  is Go map assignment `m[k] = v`, `mlookup` is indexing with the
  comma-ok idiom.  For the one claim about aliasing of caller-owned maps,
  a small heap model (`Heap`, `getPrelude`) makes the Go reference
  semantics of maps explicit.
* Network effects are an oracle `World`: `dataResp i` is the outcome of
  the (i+1)-th data GET issued by this proxy (`none` = request
  creation/transport failure, `some c` = a response with HTTP status
  `c`), `authResp i` is the outcome of the (i+1)-th token-endpoint POST,
  and `clock i` is the value returned by the (i+1)-th
  `time.Now().Unix()` reading.
* The proxy's mutable fields plus instrumentation counters (number of
  data requests issued, auth requests issued, clock reads, 1-second
  sleeps performed) form `PState`.
* JSON numbers (`expires_in`) are modelled as integers; the Go code
  truncates the decoded float64 with `int64(...)`, which is exact on
  integral values.
* URL assembly (`buildFullURL`, `SetHost`, `SetBaseURL`) and the
  `timeout` argument are pure plumbing with no influence on the modelled
  control flow and are not embedded.
-/

namespace TdxProxy

/-- Go `map[string]string`, as an association list (first binding wins). -/
abbrev SMap := List (String × String)

/-- Go map indexing `m[k]` (comma-ok idiom: `some` iff the key is present). -/
def mlookup : SMap → String → Option String
  | [], _ => none
  | (k', v) :: rest, k => if k' = k then some v else mlookup rest k

/-- Go map assignment `m[k] = v`: overwrite the binding if present,
otherwise add one. -/
def mapSet : SMap → String → String → SMap
  | [], k, v => [(k, v)]
  | (k', v') :: rest, k, v =>
      if k' = k then (k, v) :: rest else (k', v') :: mapSet rest k v

/-- Outcome of one token-endpoint POST, as the fields of `updateAuth`
observe it: HTTP status, whether `io.ReadAll` and `json.Unmarshal`
succeed, and the decoded `access_token` (present iff the JSON has a
string field of that name) and `expires_in` (present iff the JSON has a
numeric field of that name, modelled integral). -/
structure AuthBody where
  status : Nat
  readOk : Bool
  parseOk : Bool
  accessToken : Option String
  expiresIn : Option Int
  deriving DecidableEq

/-- The part of Go's `*http.Response` that the embedded control flow
reads: the HTTP status code. -/
structure GoResp where
  status : Nat
  deriving DecidableEq

/-- Oracle for all effects outside the proxy: data-endpoint responses,
token-endpoint responses, and the wall clock. -/
structure World where
  dataResp : Nat → Option Nat
  authResp : Nat → Option AuthBody
  clock : Nat → Int

/-- The mutable fields of the Go `proxy` struct (`appID`, `appKey`,
`authToken`, `expiredTime`) plus instrumentation counters that index the
`World` oracle and record observable effects. -/
structure PState where
  appID : String
  appKey : String
  authToken : String
  expiredTime : Int
  dataCount : Nat
  authCount : Nat
  clockCount : Nat
  sleepCount : Nat
  deriving DecidableEq

/-- The error values the Go code constructs, one constructor per
`fmt.Errorf`/`errors.New` site in `Get`'s call graph. -/
inductive GetError where
  /-- The message is max retry attempts reached for the endpoint url. -/
  | maxRetry (url : String)
  /-- Wrapper failed to build auth headers around a `buildAuthHeaders`
  error. -/
  | buildAuthFailed (e : GetError)
  /-- Request creation or transport failure of a data GET. -/
  | requestFailed
  /-- Wrapper failed to refresh auth token around an `updateAuth` error
  (the 401 branch of `handleResponse`). -/
  | refreshFailed (e : GetError)
  /-- The message is unexpected status code, carrying the status. -/
  | unexpectedStatus (status : Nat)
  /-- Transport failure of the token-endpoint POST. -/
  | authTransport
  /-- The message is auth request returned status, carrying the status. -/
  | authStatus (status : Nat)
  /-- The auth response body could not be read. -/
  | authReadFailed
  /-- The auth response body could not be parsed as JSON. -/
  | authParseFailed
  /-- The message is auth response missing access_token. -/
  | missingAccessToken
  /-- The message is auth response missing expires_in. -/
  | missingExpiresIn
  deriving DecidableEq

/-- `updateAuth` (source lines 445-486): POST to the token endpoint;
require status 200; read and JSON-decode the body; require a string
`access_token` and a numeric `expires_in`; on success store the token and
set `expiredTime` to the clock reading taken at that point plus
`expires_in` minus 60. Every failure returns an error with the stored
token and expiry untouched. -/
def updateAuth (w : World) (s0 : PState) : PState × Option GetError :=
  let s := { s0 with authCount := s0.authCount + 1 }
  match w.authResp s0.authCount with
  | none => (s, some .authTransport)
  | some b =>
      if b.status ≠ 200 then (s, some (.authStatus b.status))
      else if !b.readOk then (s, some .authReadFailed)
      else if !b.parseOk then (s, some .authParseFailed)
      else
        match b.accessToken with
        | none => (s, some .missingAccessToken)
        | some tok =>
            match b.expiresIn with
            | none => (s, some .missingExpiresIn)
            | some e =>
                ({ s with authToken := tok,
                          expiredTime := w.clock s0.clockCount + e - 60,
                          clockCount := s0.clockCount + 1 }, none)

/-- The fixed browser User-Agent string returned in anonymous mode. -/
def userAgent : String :=
  "Mozilla/5.0 (Windows NT 10.0; Win64; x64) AppleWebKit/537.36 (KHTML, like Gecko) Chrome/80.0.3987.122 Safari/537.36"

/-- `buildAuthHeaders` (source lines 424-442): anonymous identities get
the fixed User-Agent header and nothing else; otherwise refresh the token
when it is empty or the current clock reading exceeds `expiredTime`
(short-circuit: the clock is only read when the token is non-empty),
propagating a refresh error, and return the Bearer Authorization
header. -/
def buildAuthHeaders (w : World) (s : PState) : PState × Except GetError SMap :=
  if s.appID = "" ∨ s.appKey = "" then
    (s, .ok [("User-Agent", userAgent)])
  else
    let (s1, needRefresh) :=
      if s.authToken = "" then (s, true)
      else ({ s with clockCount := s.clockCount + 1 },
            decide (s.expiredTime < w.clock s.clockCount))
    if needRefresh then
      match updateAuth w s1 with
      | (s2, some e) => (s2, .error e)
      | (s2, none) => (s2, .ok [("Authorization", "Bearer " ++ s2.authToken)])
    else
      (s1, .ok [("Authorization", "Bearer " ++ s1.authToken)])

/-- The caller-header override loop of `requestWithRetry`:
`for k, v := range headers { reqHeaders[k] = v }` (caller entries are
written into the freshly built request-header map and win on
collision). -/
def mergeHeaders (reqHeaders headers : SMap) : SMap :=
  headers.foldl (fun m kv => mapSet m kv.1 kv.2) reqHeaders

/-- `requestWithRetry` (source lines 347-380): reject when `retryCount`
exceeds 2; otherwise build auth headers (propagating failure), merge
caller headers over them, issue the data GET, and dispatch on the
response status exactly as `handleResponse` (source lines 382-407) does:
200/304 succeed, 401 refreshes the token and retries with
`retryCount + 1`, 429 sleeps one second and retries with
`retryCount + 1`, anything else fails with the status; an error from the
dispatch is returned with a nil response.  `handleResponse` is stated
below as a separate definition and `requestWithRetry_step` proves this
body is its composition with the attempt prelude. -/
def requestWithRetry (w : World) (url : String) (params headers : SMap)
    (s : PState) (retryCount : Nat) : PState × Option GoResp × Option GetError :=
  if h : retryCount > 2 then (s, none, some (.maxRetry url))
  else
    match buildAuthHeaders w s with
    | (s1, .error e) => (s1, none, some (.buildAuthFailed e))
    | (s1, .ok reqHeaders0) =>
        let _reqHeaders := mergeHeaders reqHeaders0 headers
        match w.dataResp s1.dataCount with
        | none => ({ s1 with dataCount := s1.dataCount + 1 }, none, some .requestFailed)
        | some status =>
            let s2 := { s1 with dataCount := s1.dataCount + 1 }
            let result :=
              if status = 200 ∨ status = 304 then (s2, some (GoResp.mk status), none)
              else if status = 401 then
                match updateAuth w s2 with
                | (s3, some e) => (s3, none, some (.refreshFailed e))
                | (s3, none) => requestWithRetry w url params headers s3 (retryCount + 1)
              else if status = 429 then
                requestWithRetry w url params headers
                  { s2 with sleepCount := s2.sleepCount + 1 } (retryCount + 1)
              else (s2, none, some (.unexpectedStatus status))
            match result with
            | (s4, _, some e) => (s4, none, some e)
            | (s4, r, none) => (s4, r, none)
termination_by 3 - retryCount
decreasing_by all_goals omega

/-- `handleResponse` (source lines 382-407): 200/304 return the response;
401 refreshes the token (failure aborts with a wrapped error, success
retries with `retryCount + 1`); 429 sleeps one second and retries with
`retryCount + 1`; any other status fails with that status and no
response. -/
def handleResponse (w : World) (resp : GoResp) (url : String)
    (params headers : SMap) (s : PState) (retryCount : Nat) :
    PState × Option GoResp × Option GetError :=
  if resp.status = 200 ∨ resp.status = 304 then (s, some resp, none)
  else if resp.status = 401 then
    match updateAuth w s with
    | (s1, some e) => (s1, none, some (.refreshFailed e))
    | (s1, none) => requestWithRetry w url params headers s1 (retryCount + 1)
  else if resp.status = 429 then
    requestWithRetry w url params headers
      { s with sleepCount := s.sleepCount + 1 } (retryCount + 1)
  else (s, none, some (.unexpectedStatus resp.status))

/-- Lines 313-318 of `Get`: a nil params map becomes a fresh map holding
only the `$format`/`JSON` binding, and a map lacking the `$format` key
gets that binding added. -/
def effectiveParams (params0 : Option SMap) : SMap :=
  let params :=
    match params0 with
    | none => [("$format", "JSON")]
    | some p => p
  if (mlookup params "$format").isSome then params
  else mapSet params "$format" "JSON"

/-- `Get` (source lines 312-323): default the params and headers maps and
start `requestWithRetry` at retry count 0. -/
def Get (w : World) (url : String) (params headers : Option SMap)
    (s : PState) : PState × Option GoResp × Option GetError :=
  requestWithRetry w url (effectiveParams params) (headers.getD []) s 0

/-- `NewProxy` (source lines 247-260): fresh proxy state. `expiredTime`
is initialised to the construction-time clock reading. -/
def mkProxy (appID appKey : String) (now : Int) : PState :=
  { appID := appID, appKey := appKey, authToken := "", expiredTime := now,
    dataCount := 0, authCount := 0, clockCount := 0, sleepCount := 0 }

/-- A token-endpoint response is good when `updateAuth` accepts it:
status 200, readable, parseable, and both JSON fields present. -/
def authGood : Option AuthBody → Bool
  | none => false
  | some b =>
      b.status == 200 && b.readOk && b.parseOk
        && b.accessToken.isSome && b.expiresIn.isSome

/-- Token-cache validity exactly as the spec words it: a non-empty token
whose `expiresAt` lies strictly after the current time. Stated from the
spec, not the source, to be compared against the source's refresh
condition. -/
def specIsValid (token : String) (now expiresAt : Int) : Bool :=
  (token != "") && decide (now < expiresAt)

/-- Heap of Go string-map objects: Go map values are references, so
writing through a reference mutates the shared map object in place. -/
structure Heap where
  maps : Nat → SMap
  next : Nat

/-- Go map assignment through a reference: `m[k] = v` updates the heap
cell the reference points to. -/
def Heap.write (h : Heap) (r : Nat) (k v : String) : Heap :=
  { h with maps := fun r' => if r' = r then mapSet (h.maps r) k v else h.maps r' }

/-- Allocation of a fresh Go map object (a map literal). -/
def Heap.alloc (h : Heap) (m : SMap) : Heap × Nat :=
  ({ maps := fun r' => if r' = h.next then m else h.maps r', next := h.next + 1 },
   h.next)

/-- Lines 313-321 of `Get` over the heap model: `params == nil` rebinds
the local variable to a freshly allocated map literal; a non-nil params
map lacking the `$format` key is written through the caller's reference;
a nil headers map is rebound to a fresh empty map, a non-nil one is used
as is. Returns the heap after the prelude and the references the request
path goes on to use. -/
def getPrelude (h : Heap) (paramsRef headersRef : Option Nat) :
    Heap × Nat × Nat :=
  let (h1, pr) :=
    match paramsRef with
    | none => h.alloc [("$format", "JSON")]
    | some r =>
        if (mlookup (h.maps r) "$format").isSome then (h, r)
        else (h.write r "$format" "JSON", r)
  let (h2, hr) :=
    match headersRef with
    | none => h1.alloc []
    | some r => (h1, r)
  (h2, pr, hr)

/-- Concrete well-formed token-endpoint response used in witnesses. -/
def exAuthBody : AuthBody :=
  { status := 200, readOk := true, parseOk := true,
    accessToken := some "tok2", expiresIn := some 3600 }

/-- Concrete token-endpoint response with status 500 used in witnesses. -/
def exBadAuthBody : AuthBody :=
  { status := 500, readOk := true, parseOk := true,
    accessToken := none, expiresIn := none }

/-- World in which every data request is rate limited (HTTP 429) and the
token endpoint always succeeds. -/
def exW429 : World :=
  { dataResp := fun _ => some 429, authResp := fun _ => some exAuthBody,
    clock := fun _ => 0 }

/-- World in which every data request returns HTTP 500 and the token
endpoint always succeeds. -/
def exW500 : World :=
  { dataResp := fun _ => some 500, authResp := fun _ => some exAuthBody,
    clock := fun _ => 0 }

/-- World in which every data request returns HTTP 200, the token
endpoint always succeeds, and the clock reads 100. -/
def exW100 : World :=
  { dataResp := fun _ => some 200, authResp := fun _ => some exAuthBody,
    clock := fun _ => 100 }

/-- World in which every data request returns HTTP 200 and the token
endpoint always succeeds. -/
def exW200 : World :=
  { dataResp := fun _ => some 200, authResp := fun _ => some exAuthBody,
    clock := fun _ => 0 }

/-- World whose token endpoint always answers with status 500. -/
def exWBad : World :=
  { dataResp := fun _ => none, authResp := fun _ => some exBadAuthBody,
    clock := fun _ => 0 }

/-- World whose clock always reads 5 (for the expiry-boundary case). -/
def exW5 : World :=
  { dataResp := fun _ => none, authResp := fun _ => none,
    clock := fun _ => 5 }

/-- Authenticated proxy state holding token t that expires at time 5. -/
def exS5 : PState :=
  { appID := "a", appKey := "b", authToken := "t", expiredTime := 5,
    dataCount := 0, authCount := 0, clockCount := 0, sleepCount := 0 }

/-- Concrete two-map heap: reference 0 is the caller params map holding
one binding, reference 1 is the caller headers map. -/
def exHeap : Heap :=
  { maps := fun ref => if ref = 0 then [("a", "1")] else [], next := 2 }

end TdxProxy

namespace TdxProxy

theorem mlookup_mapSet_self (m : SMap) (k v : String) :
    mlookup (mapSet m k v) k = some v := by
  induction m with
  | nil => simp [mapSet, mlookup]
  | cons kv rest ih =>
      obtain ⟨k', v'⟩ := kv
      by_cases hk : k' = k
      · subst hk
        simp [mapSet, mlookup]
      · simp [mapSet, mlookup, hk, ih]

theorem mlookup_mapSet_ne (m : SMap) (k v k' : String) (h : k' ≠ k) :
    mlookup (mapSet m k v) k' = mlookup m k' := by
  induction m with
  | nil => simp [mapSet, mlookup, Ne.symm h]
  | cons kv rest ih =>
      obtain ⟨k0, v0⟩ := kv
      by_cases hk : k0 = k
      · subst hk
        simp [mapSet, mlookup, h, Ne.symm h]
      · simp [mapSet, mlookup, hk, ih]

theorem authGood_some_iff (b : AuthBody) :
    authGood (some b) = true ↔
      b.status = 200 ∧ b.readOk = true ∧ b.parseOk = true
        ∧ (∃ tok, b.accessToken = some tok) ∧ (∃ e, b.expiresIn = some e) := by
  simp [authGood, and_assoc, Option.isSome_iff_exists]

theorem updateAuth_good (w : World) (s : PState) (b : AuthBody)
    (tok : String) (e : Int) (hb : w.authResp s.authCount = some b)
    (h200 : b.status = 200) (hr : b.readOk = true) (hp : b.parseOk = true)
    (ht : b.accessToken = some tok) (he : b.expiresIn = some e) :
    updateAuth w s =
      ({ s with authCount := s.authCount + 1, authToken := tok,
                expiredTime := w.clock s.clockCount + e - 60,
                clockCount := s.clockCount + 1 }, none) := by
  unfold updateAuth
  rw [hb]
  simp [h200, hr, hp, ht, he]

theorem updateAuth_ok_of_good (w : World) (s : PState)
    (h : authGood (w.authResp s.authCount) = true) :
    ∃ tok e, updateAuth w s =
      ({ s with authCount := s.authCount + 1, authToken := tok,
                expiredTime := w.clock s.clockCount + e - 60,
                clockCount := s.clockCount + 1 }, none) := by
  cases hb : w.authResp s.authCount with
  | none => rw [hb] at h; simp [authGood] at h
  | some b =>
      rw [hb] at h
      obtain ⟨h200, hr, hp, ⟨tok, ht⟩, ⟨e, he⟩⟩ := (authGood_some_iff b).mp h
      exact ⟨tok, e, updateAuth_good w s b tok e hb h200 hr hp ht he⟩

theorem updateAuth_fail (w : World) (s : PState)
    (h : authGood (w.authResp s.authCount) = false) :
    ∃ er, updateAuth w s = ({ s with authCount := s.authCount + 1 }, some er) := by
  unfold updateAuth
  cases hb : w.authResp s.authCount with
  | none => exact ⟨.authTransport, rfl⟩
  | some b =>
      rw [hb] at h
      by_cases h200 : b.status = 200
      · by_cases hr : b.readOk
        · by_cases hp : b.parseOk
          · cases ht : b.accessToken with
            | none => simp [h200, hr, hp, ht]
            | some tok =>
                cases he : b.expiresIn with
                | none => simp [h200, hr, hp, ht, he]
                | some e => simp [authGood, h200, hr, hp, ht, he] at h
          · simp [h200, hr, hp]
        · simp [h200, hr]
      · simp [h200]

theorem buildAuthHeaders_anon (w : World) (s : PState)
    (h : s.appID = "" ∨ s.appKey = "") :
    buildAuthHeaders w s = (s, .ok [("User-Agent", userAgent)]) := by
  unfold buildAuthHeaders
  simp [h]

theorem buildAuthHeaders_valid (w : World) (s : PState)
    (hid : ¬(s.appID = "" ∨ s.appKey = "")) (ht : s.authToken ≠ "")
    (hc : ¬ s.expiredTime < w.clock s.clockCount) :
    buildAuthHeaders w s =
      ({ s with clockCount := s.clockCount + 1 },
       .ok [("Authorization", "Bearer " ++ s.authToken)]) := by
  unfold buildAuthHeaders
  simp [hid, ht, hc]

theorem updateAuth_state (w : World) (s : PState) :
    (updateAuth w s).1.dataCount = s.dataCount
    ∧ (updateAuth w s).1.sleepCount = s.sleepCount
    ∧ (updateAuth w s).1.appID = s.appID
    ∧ (updateAuth w s).1.appKey = s.appKey
    ∧ (updateAuth w s).1.authCount = s.authCount + 1 := by
  unfold updateAuth
  cases hb : w.authResp s.authCount with
  | none => simp
  | some b =>
      by_cases h200 : b.status = 200
      · by_cases hr : b.readOk
        · by_cases hp : b.parseOk
          · cases ht : b.accessToken with
            | none => simp [h200, hr, hp, ht]
            | some tok =>
                cases he : b.expiresIn with
                | none => simp [h200, hr, hp, ht, he]
                | some e => simp [h200, hr, hp, ht, he]
          · simp [h200, hr, hp]
        · simp [h200, hr]
      · simp [h200]

theorem buildAuthHeaders_state (w : World) (s : PState) :
    (buildAuthHeaders w s).1.dataCount = s.dataCount
    ∧ (buildAuthHeaders w s).1.sleepCount = s.sleepCount
    ∧ (buildAuthHeaders w s).1.appID = s.appID
    ∧ (buildAuthHeaders w s).1.appKey = s.appKey := by
  unfold buildAuthHeaders
  by_cases hanon : s.appID = "" ∨ s.appKey = ""
  · simp [hanon]
  · by_cases htok : s.authToken = ""
    · have hst := updateAuth_state w s
      rcases hu : updateAuth w s with ⟨s2, e2⟩
      rw [hu] at hst
      cases e2 <;> simp [hanon, htok, hu] <;>
        exact ⟨hst.1, hst.2.1, hst.2.2.1, hst.2.2.2.1⟩
    · by_cases hexp : s.expiredTime < w.clock s.clockCount
      · have hst := updateAuth_state w { s with clockCount := s.clockCount + 1 }
        rcases hu : updateAuth w { s with clockCount := s.clockCount + 1 } with ⟨s2, e2⟩
        rw [hu] at hst
        cases e2 <;> simp [hanon, htok, hexp, hu] <;>
          exact ⟨hst.1, hst.2.1, hst.2.2.1, hst.2.2.2.1⟩
      · simp [hanon, htok, hexp]

theorem buildAuthHeaders_ok_of_good (w : World) (s : PState)
    (h : authGood (w.authResp s.authCount) = true) :
    ∃ hdrs, (buildAuthHeaders w s).2 = Except.ok hdrs := by
  unfold buildAuthHeaders
  by_cases hanon : s.appID = "" ∨ s.appKey = ""
  · refine ⟨[("User-Agent", userAgent)], ?_⟩
    simp [hanon]
  · by_cases htok : s.authToken = ""
    · obtain ⟨tok, e, hu⟩ := updateAuth_ok_of_good w s h
      refine ⟨[("Authorization", "Bearer " ++ tok)], ?_⟩
      simp [hanon, htok, hu]
    · by_cases hexp : s.expiredTime < w.clock s.clockCount
      · obtain ⟨tok, e, hu⟩ :=
          updateAuth_ok_of_good w { s with clockCount := s.clockCount + 1 } h
        refine ⟨[("Authorization", "Bearer " ++ tok)], ?_⟩
        simp [hanon, htok, hexp, hu]
      · refine ⟨[("Authorization", "Bearer " ++ s.authToken)], ?_⟩
        simp [hanon, htok, hexp]

theorem requestWithRetry_guard (w : World) (url : String) (params headers : SMap)
    (s : PState) (retryCount : Nat) (h : retryCount > 2) :
    requestWithRetry w url params headers s retryCount = (s, none, some (.maxRetry url)) := by
  rw [requestWithRetry]
  rw [dif_pos h]

theorem requestWithRetry_step (w : World) (url : String) (params headers : SMap)
    (s : PState) (retryCount : Nat) (h : ¬ retryCount > 2) :
    requestWithRetry w url params headers s retryCount =
      match buildAuthHeaders w s with
      | (s1, .error e) => (s1, none, some (.buildAuthFailed e))
      | (s1, .ok _) =>
          match w.dataResp s1.dataCount with
          | none => ({ s1 with dataCount := s1.dataCount + 1 }, none, some .requestFailed)
          | some status =>
              match handleResponse w ⟨status⟩ url params headers
                  { s1 with dataCount := s1.dataCount + 1 } retryCount with
              | (s4, _, some e) => (s4, none, some e)
              | (s4, r, none) => (s4, r, none)
      := by
  rw [requestWithRetry]
  rw [dif_neg h]
  rcases hb : buildAuthHeaders w s with ⟨s1, r1⟩
  cases r1 with
  | error e => simp
  | ok hdrs =>
      cases hd : w.dataResp s1.dataCount with
      | none => simp [hd]
      | some status => simp [hd, handleResponse]


theorem rwr_all429 (w : World) (url : String) (params headers : SMap)
    (hdata : ∀ i, w.dataResp i = some 429)
    (hauth : ∀ i, authGood (w.authResp i) = true) :
    ∀ k s rc, 3 - rc = k →
      (requestWithRetry w url params headers s rc).2.2 = some (.maxRetry url)
      ∧ (requestWithRetry w url params headers s rc).2.1 = none
      ∧ (requestWithRetry w url params headers s rc).1.dataCount = s.dataCount + k
      ∧ (requestWithRetry w url params headers s rc).1.sleepCount = s.sleepCount + k := by
  intro k
  induction k with
  | zero =>
      intro s rc hk
      have hrc : rc > 2 := by omega
      rw [requestWithRetry_guard w url params headers s rc hrc]
      simp
  | succ k ih =>
      intro s rc hk
      have hrc : ¬ rc > 2 := by omega
      rw [requestWithRetry_step w url params headers s rc hrc]
      have hok := buildAuthHeaders_ok_of_good w s (hauth s.authCount)
      have hst := buildAuthHeaders_state w s
      rcases hb : buildAuthHeaders w s with ⟨s1, r1⟩
      rw [hb] at hok hst
      obtain ⟨hdrs, hr1⟩ := hok
      simp only at hr1
      subst hr1
      simp only [hdata s1.dataCount]
      have hhr : handleResponse w ⟨429⟩ url params headers
          { s1 with dataCount := s1.dataCount + 1 } rc =
          requestWithRetry w url params headers
            { s1 with dataCount := s1.dataCount + 1, sleepCount := s1.sleepCount + 1 }
            (rc + 1) := by
        simp [handleResponse]
      simp only [hhr]
      obtain ⟨ih1, ih2, ih3, ih4⟩ := ih
        { s1 with dataCount := s1.dataCount + 1, sleepCount := s1.sleepCount + 1 }
        (rc + 1) (by omega)
      rcases hres : requestWithRetry w url params headers
          { s1 with dataCount := s1.dataCount + 1, sleepCount := s1.sleepCount + 1 }
          (rc + 1) with ⟨s4, r4, e4⟩
      rw [hres] at ih1 ih2 ih3 ih4
      simp only at ih1 ih2 ih3 ih4
      subst ih1
      subst ih2
      simp only at ih3 ih4 ⊢
      refine ⟨trivial, trivial, ?_, ?_⟩
      · have hd1 : s1.dataCount = s.dataCount := hst.1
        omega
      · have hs1 : s1.sleepCount = s.sleepCount := hst.2.1
        omega


end TdxProxy

namespace TdxProxy

theorem handleResponse_success (w : World) (url : String) (params headers : SMap)
    (s : PState) (rc : Nat) (status : Nat) (h2 : status = 200 ∨ status = 304) :
    handleResponse w ⟨status⟩ url params headers s rc = (s, some ⟨status⟩, none) := by
  simp [handleResponse, h2]

theorem handleResponse_401_fail (w : World) (url : String) (params headers : SMap)
    (s : PState) (rc : Nat) (s1 : PState) (e : GetError)
    (hu : updateAuth w s = (s1, some e)) :
    handleResponse w ⟨401⟩ url params headers s rc =
      (s1, none, some (.refreshFailed e)) := by
  simp [handleResponse, hu]

theorem handleResponse_401_ok (w : World) (url : String) (params headers : SMap)
    (s : PState) (rc : Nat) (s1 : PState) (hu : updateAuth w s = (s1, none)) :
    handleResponse w ⟨401⟩ url params headers s rc =
      requestWithRetry w url params headers s1 (rc + 1) := by
  simp [handleResponse, hu]

theorem handleResponse_429 (w : World) (url : String) (params headers : SMap)
    (s : PState) (rc : Nat) :
    handleResponse w ⟨429⟩ url params headers s rc =
      requestWithRetry w url params headers
        { s with sleepCount := s.sleepCount + 1 } (rc + 1) := by
  simp [handleResponse]

theorem handleResponse_other (w : World) (url : String) (params headers : SMap)
    (s : PState) (rc : Nat) (status : Nat) (h2 : ¬(status = 200 ∨ status = 304))
    (h401 : status ≠ 401) (h429 : status ≠ 429) :
    handleResponse w ⟨status⟩ url params headers s rc =
      (s, none, some (.unexpectedStatus status)) := by
  simp [handleResponse, h2, h401, h429]

/-- Result-shape invariant of `requestWithRetry`: the response and error
sides are mutually exclusive, and a returned response always has status
200 or 304. -/
theorem rwr_shape (w : World) (url : String) (params headers : SMap) :
    ∀ n s rc, 3 - rc ≤ n →
      ((requestWithRetry w url params headers s rc).2.1 = none
        ∧ (requestWithRetry w url params headers s rc).2.2 ≠ none)
      ∨ (∃ c, (requestWithRetry w url params headers s rc).2.1 = some ⟨c⟩
          ∧ (c = 200 ∨ c = 304)
          ∧ (requestWithRetry w url params headers s rc).2.2 = none) := by
  intro n
  induction n with
  | zero =>
      intro s rc hn
      have hrc : rc > 2 := by omega
      rw [requestWithRetry_guard w url params headers s rc hrc]
      exact Or.inl (by simp)
  | succ n ih =>
      intro s rc hn
      by_cases hrc : rc > 2
      · rw [requestWithRetry_guard w url params headers s rc hrc]
        exact Or.inl (by simp)
      rw [requestWithRetry_step w url params headers s rc hrc]
      rcases hb : buildAuthHeaders w s with ⟨s1, r1⟩
      cases r1 with
      | error e =>
          simp only [hb]
          exact Or.inl (by simp)
      | ok hdrs =>
      simp only [hb]
      rcases hd : w.dataResp s1.dataCount with _ | status
      · simp only [hd]
        exact Or.inl (by simp)
      simp only [hd]
      by_cases h2 : status = 200 ∨ status = 304
      · rw [handleResponse_success w url params headers
          { s1 with dataCount := s1.dataCount + 1 } rc status h2]
        exact Or.inr ⟨status, by simp, h2, by simp⟩
      by_cases h401 : status = 401
      · subst h401
        rcases hu : updateAuth w { s1 with dataCount := s1.dataCount + 1 } with ⟨s3, e3⟩
        cases e3 with
        | some e =>
            rw [handleResponse_401_fail w url params headers
              { s1 with dataCount := s1.dataCount + 1 } rc s3 e hu]
            exact Or.inl (by simp)
        | none =>
        rw [handleResponse_401_ok w url params headers
          { s1 with dataCount := s1.dataCount + 1 } rc s3 hu]
        have hrec := ih s3 (rc + 1) (by omega)
        rcases hres : requestWithRetry w url params headers s3 (rc + 1) with ⟨s4, r4, e4⟩
        rw [hres] at hrec
        rcases hrec with ⟨hr4, he4⟩ | ⟨c, hr4, hc, he4⟩
        · have hr : r4 = none := hr4
          have he : e4 ≠ none := he4
          subst hr
          cases e4 with
          | none => exact absurd rfl he
          | some e => exact Or.inl (by simp)
        · have hr : r4 = some ⟨c⟩ := hr4
          have he : e4 = none := he4
          subst hr
          subst he
          exact Or.inr ⟨c, by simp, hc, by simp⟩
      by_cases h429 : status = 429
      · subst h429
        rw [handleResponse_429 w url params headers
          { s1 with dataCount := s1.dataCount + 1 } rc]
        have hrec := ih
          { s1 with dataCount := s1.dataCount + 1, sleepCount := s1.sleepCount + 1 }
          (rc + 1) (by omega)
        rcases hres : requestWithRetry w url params headers
            { s1 with dataCount := s1.dataCount + 1, sleepCount := s1.sleepCount + 1 }
            (rc + 1) with ⟨s4, r4, e4⟩
        rw [hres] at hrec
        rcases hrec with ⟨hr4, he4⟩ | ⟨c, hr4, hc, he4⟩
        · have hr : r4 = none := hr4
          have he : e4 ≠ none := he4
          subst hr
          cases e4 with
          | none => exact absurd rfl he
          | some e => exact Or.inl (by simp)
        · have hr : r4 = some ⟨c⟩ := hr4
          have he : e4 = none := he4
          subst hr
          subst he
          exact Or.inr ⟨c, by simp, hc, by simp⟩
      rw [handleResponse_other w url params headers
        { s1 with dataCount := s1.dataCount + 1 } rc status h2 h401 h429]
      exact Or.inl (by simp)

end TdxProxy

namespace TdxProxy

/-- Claim C1: for every Get call in which every data request returns HTTP
429 and every token-endpoint call succeeds, exactly 3 data attempts are
made, one fixed 1-second sleep is performed after each of the three 429
responses, and Get fails with the retry-exhausted error naming the
endpoint, returning no response. Each 429 transition increments the
retry counter, and the `retryCount > 2` guard rejects the fourth
attempt. -/
theorem C1_persistent429_exhausts_retries (w : World) (url : String)
    (params headers : Option SMap) (s : PState)
    (hdata : ∀ i, w.dataResp i = some 429)
    (hauth : ∀ i, authGood (w.authResp i) = true) :
    (Get w url params headers s).2.2 = some (.maxRetry url)
    ∧ (Get w url params headers s).2.1 = none
    ∧ (Get w url params headers s).1.dataCount = s.dataCount + 3
    ∧ (Get w url params headers s).1.sleepCount = s.sleepCount + 3 := by
  unfold Get
  exact rwr_all429 w url (effectiveParams params) (headers.getD []) hdata hauth 3 s 0 rfl

/-- Witness for C1 at a concrete rate-limited world and a fresh
authenticated proxy. -/
theorem C1_witness :
    (Get exW429 "ep" none none (mkProxy "id" "key" 0)).2.2 = some (.maxRetry "ep")
    ∧ (Get exW429 "ep" none none (mkProxy "id" "key" 0)).2.1 = none
    ∧ (Get exW429 "ep" none none (mkProxy "id" "key" 0)).1.dataCount =
        (mkProxy "id" "key" 0).dataCount + 3
    ∧ (Get exW429 "ep" none none (mkProxy "id" "key" 0)).1.sleepCount =
        (mkProxy "id" "key" 0).sleepCount + 3 :=
  C1_persistent429_exhausts_retries exW429 "ep" none none (mkProxy "id" "key" 0)
    (fun _ => rfl) (fun _ => rfl)

/-- Claim C4: a successful token refresh that receives HTTP 200 with a
string access_token and a numeric expires_in stores that token and sets
`expiredTime` to exactly the clock reading taken at completion plus
expires_in minus 60 (expires_in modelled as an integer; the Go code
truncates the decoded float64 with int64, exact on integral values). -/
theorem C4_expiry_formula (w : World) (s : PState) (b : AuthBody)
    (tok : String) (e : Int) (hb : w.authResp s.authCount = some b)
    (h200 : b.status = 200) (hread : b.readOk = true) (hparse : b.parseOk = true)
    (htok : b.accessToken = some tok) (hexp : b.expiresIn = some e) :
    (updateAuth w s).2 = none
    ∧ (updateAuth w s).1.authToken = tok
    ∧ (updateAuth w s).1.expiredTime = w.clock s.clockCount + e - 60 := by
  rw [updateAuth_good w s b tok e hb h200 hread hparse htok hexp]
  exact ⟨rfl, rfl, rfl⟩

/-- Witness for C4 at a clock reading of 100 and expires_in 3600. -/
theorem C4_witness :
    (updateAuth exW100 (mkProxy "id" "key" 0)).2 = none
    ∧ (updateAuth exW100 (mkProxy "id" "key" 0)).1.authToken = "tok2"
    ∧ (updateAuth exW100 (mkProxy "id" "key" 0)).1.expiredTime =
        exW100.clock (mkProxy "id" "key" 0).clockCount + 3600 - 60 :=
  C4_expiry_formula exW100 (mkProxy "id" "key" 0) exAuthBody "tok2" 3600
    rfl rfl rfl rfl rfl rfl

/-- Claim C5: for every identity with empty appID or appKey, building
auth headers returns exactly the single fixed browser User-Agent entry,
leaves the state untouched (in particular no token refresh is invoked),
returns no error, and the returned map has no Authorization entry. -/
theorem C5_anonymous_headers (w : World) (s : PState)
    (h : s.appID = "" ∨ s.appKey = "") :
    buildAuthHeaders w s = (s, Except.ok [("User-Agent", userAgent)])
    ∧ (buildAuthHeaders w s).1.authCount = s.authCount
    ∧ mlookup [("User-Agent", userAgent)] "Authorization" = none := by
  have h1 := buildAuthHeaders_anon w s h
  exact ⟨h1, by rw [h1], rfl⟩

/-- Witness for C5 at an anonymous proxy state. -/
theorem C5_witness :
    buildAuthHeaders exW429 (mkProxy "" "" 0) =
      (mkProxy "" "" 0, Except.ok [("User-Agent", userAgent)])
    ∧ (buildAuthHeaders exW429 (mkProxy "" "" 0)).1.authCount =
        (mkProxy "" "" 0).authCount
    ∧ mlookup [("User-Agent", userAgent)] "Authorization" = none :=
  C5_anonymous_headers exW429 (mkProxy "" "" 0) (Or.inl rfl)

/-- Claim C8: the query parameters used by Get always contain the
`$format` key: nil params become the single binding `$format = JSON`, a
params map lacking the key gets `$format = JSON` added, and a
caller-supplied `$format` value is never overwritten. -/
theorem C8_format_param_inject_if_absent (params : Option SMap) :
    (params = none → effectiveParams params = [("$format", "JSON")])
    ∧ (∀ p, params = some p → mlookup p "$format" = none →
        effectiveParams params = mapSet p "$format" "JSON"
        ∧ mlookup (effectiveParams params) "$format" = some "JSON")
    ∧ (∀ p v, params = some p → mlookup p "$format" = some v →
        effectiveParams params = p
        ∧ mlookup (effectiveParams params) "$format" = some v) := by
  refine ⟨?_, ?_, ?_⟩
  · intro h
    subst h
    rfl
  · intro p hp habs
    subst hp
    have he : effectiveParams (some p) = mapSet p "$format" "JSON" := by
      unfold effectiveParams
      simp [habs]
    exact ⟨he, by rw [he]; exact mlookup_mapSet_self p "$format" "JSON"⟩
  · intro p v hp hv
    subst hp
    have he : effectiveParams (some p) = p := by
      unfold effectiveParams
      simp [hv]
    exact ⟨he, by rw [he]; exact hv⟩

/-- Witness for C8 at a params map lacking the key. -/
theorem C8_witness :
    effectiveParams (some [("a", "1")]) = mapSet [("a", "1")] "$format" "JSON"
    ∧ mlookup (effectiveParams (some [("a", "1")])) "$format" = some "JSON" :=
  (C8_format_param_inject_if_absent (some [("a", "1")])).2.1 [("a", "1")] rfl rfl

/-- Claim C9: every Get call returns exactly one of a response or an
error: either the error is none and the response is present with status
200 or 304, or the response is none and the error is present. -/
theorem C9_result_exclusivity (w : World) (url : String)
    (params headers : Option SMap) (s : PState) :
    ((Get w url params headers s).2.1 = none
      ∧ (Get w url params headers s).2.2 ≠ none)
    ∨ (∃ c, (Get w url params headers s).2.1 = some ⟨c⟩
        ∧ (c = 200 ∨ c = 304)
        ∧ (Get w url params headers s).2.2 = none) := by
  unfold Get
  exact rwr_shape w url (effectiveParams params) (headers.getD []) 3 s 0 (by omega)

/-- Claim C10: over the heap model of Go map references, a Get call whose
caller supplies a params map lacking the `$format` key writes the binding
`$format = JSON` through the caller's reference: the request goes on to
use the same map object, the caller's map observably gains the binding,
every other key of that map is unchanged, and every other map object in
the heap (in particular the caller's headers map) is untouched. -/
theorem C10_caller_params_mutation (h : Heap) (r hr0 : Nat)
    (habs : mlookup (h.maps r) "$format" = none) :
    (getPrelude h (some r) (some hr0)).2.1 = r
    ∧ (getPrelude h (some r) (some hr0)).2.2 = hr0
    ∧ mlookup ((getPrelude h (some r) (some hr0)).1.maps r) "$format" = some "JSON"
    ∧ (∀ k, k ≠ "$format" →
        mlookup ((getPrelude h (some r) (some hr0)).1.maps r) k = mlookup (h.maps r) k)
    ∧ (∀ ref, ref ≠ r → (getPrelude h (some r) (some hr0)).1.maps ref = h.maps ref) := by
  refine ⟨?_, ?_, ?_, ?_, ?_⟩
  · simp [getPrelude, habs]
  · simp [getPrelude, habs]
  · simp [getPrelude, Heap.write, habs, mlookup_mapSet_self]
  · intro k hk
    simp [getPrelude, Heap.write, habs, mlookup_mapSet_ne _ _ _ _ hk]
  · intro ref href
    simp [getPrelude, Heap.write, habs, href]

/-- Witness for C10 at a concrete heap whose params map holds one
unrelated binding. -/
theorem C10_witness :
    (getPrelude exHeap (some 0) (some 1)).2.1 = 0
    ∧ mlookup ((getPrelude exHeap (some 0) (some 1)).1.maps 0) "$format" = some "JSON" :=
  ⟨(C10_caller_params_mutation exHeap 0 1 rfl).1,
   (C10_caller_params_mutation exHeap 0 1 rfl).2.2.1⟩

end TdxProxy

namespace TdxProxy

/-- Claim C2: a 401 data response always invokes the token refresh; a
failed refresh terminates the call at once with a wrapped auth error and
no further data attempt, while a successful refresh retries with the
retry counter incremented, the same endpoint, params and caller headers,
and a state holding the refreshed token; rebuilding the auth headers from
that state (as the next attempt does) yields the Bearer header of the
refreshed token while it is valid. -/
theorem C2_401_refreshes_and_retries (w : World) (url : String)
    (params headers : SMap) (s : PState) (rc : Nat) :
    (authGood (w.authResp s.authCount) = false →
      ∃ er, handleResponse w ⟨401⟩ url params headers s rc =
        ({ s with authCount := s.authCount + 1 }, none, some (.refreshFailed er)))
    ∧ (∀ b tok e, w.authResp s.authCount = some b → b.status = 200 →
        b.readOk = true → b.parseOk = true → b.accessToken = some tok →
        b.expiresIn = some e →
        handleResponse w ⟨401⟩ url params headers s rc =
          requestWithRetry w url params headers
            { s with authCount := s.authCount + 1, authToken := tok,
                     expiredTime := w.clock s.clockCount + e - 60,
                     clockCount := s.clockCount + 1 } (rc + 1))
    ∧ (∀ s' tok, s'.appID ≠ "" → s'.appKey ≠ "" → s'.authToken = tok →
        tok ≠ "" → ¬ s'.expiredTime < w.clock s'.clockCount →
        buildAuthHeaders w s' =
          ({ s' with clockCount := s'.clockCount + 1 },
           Except.ok [("Authorization", "Bearer " ++ tok)])) := by
  refine ⟨?_, ?_, ?_⟩
  · intro hbad
    obtain ⟨er, hu⟩ := updateAuth_fail w s hbad
    exact ⟨er, handleResponse_401_fail w url params headers s rc _ er hu⟩
  · intro b tok e hb h200 hread hparse htok hexp
    have hu := updateAuth_good w s b tok e hb h200 hread hparse htok hexp
    exact handleResponse_401_ok w url params headers s rc _ hu
  · intro s' tok hid hkey htok hne hc
    have hanon : ¬(s'.appID = "" ∨ s'.appKey = "") := by
      rintro (hx | hx)
      exacts [hid hx, hkey hx]
    have hv := buildAuthHeaders_valid w s' hanon (by rw [htok]; exact hne) hc
    rw [hv, htok]

/-- Witness for C2: a concrete 401 at a fresh authenticated proxy with a
healthy token endpoint retries at count 1 with the refreshed token. -/
theorem C2_witness :
    handleResponse exW200 ⟨401⟩ "ep" [] [] (mkProxy "id" "key" 0) 0 =
      requestWithRetry exW200 "ep" [] []
        { mkProxy "id" "key" 0 with
            authCount := 1, authToken := "tok2",
            expiredTime := exW200.clock 0 + 3600 - 60, clockCount := 1 } 1 :=
  (C2_401_refreshes_and_retries exW200 "ep" [] [] (mkProxy "id" "key" 0) 0).2.1
    exAuthBody "tok2" 3600 rfl rfl rfl rfl rfl rfl

/-- Claim C3 (counterexample): the claim says a refresh happens exactly
when the cached token is invalid, valid meaning non-empty and now
strictly before expiresAt. At the boundary now = expiresAt with token t
the spec-side validity is false, yet `buildAuthHeaders` performs no
refresh (the code refreshes only when now exceeds expiredTime) and
returns the Bearer header, so the claimed equivalence fails. -/
theorem C3_counterexample :
    specIsValid exS5.authToken (exW5.clock exS5.clockCount) exS5.expiredTime = false
    ∧ (buildAuthHeaders exW5 exS5).1.authCount = exS5.authCount
    ∧ (buildAuthHeaders exW5 exS5).2 =
        Except.ok [("Authorization", "Bearer t")] :=
  ⟨rfl, rfl, rfl⟩

/-- Claim C3 (amended): for every authenticated proxy state, building
auth headers invokes the token refresh exactly when the cached token is
invalid, where a token is valid iff it is non-empty and the current time
is at most `expiredTime` (the code keeps a token that expires exactly
now); for every valid token state no refresh is made and the returned
headers are exactly the Bearer Authorization entry. -/
theorem C3_amended_validity_boundary (w : World) (s : PState)
    (hid : s.appID ≠ "") (hkey : s.appKey ≠ "") :
    ((buildAuthHeaders w s).1.authCount = s.authCount + 1 ↔
      (s.authToken = "" ∨ s.expiredTime < w.clock s.clockCount))
    ∧ (s.authToken ≠ "" → ¬ s.expiredTime < w.clock s.clockCount →
        (buildAuthHeaders w s).1.authCount = s.authCount
        ∧ (buildAuthHeaders w s).2 =
            Except.ok [("Authorization", "Bearer " ++ s.authToken)]) := by
  have hanon : ¬(s.appID = "" ∨ s.appKey = "") := by
    rintro (hx | hx)
    exacts [hid hx, hkey hx]
  by_cases htok : s.authToken = ""
  · have hcount : (buildAuthHeaders w s).1.authCount = s.authCount + 1 := by
      unfold buildAuthHeaders
      simp only [hanon, if_false, htok, ite_true, if_true, ite_false]
      have hst := updateAuth_state w s
      rcases hu : updateAuth w s with ⟨s2, e2⟩
      rw [hu] at hst
      have hac : s2.authCount = s.authCount + 1 := hst.2.2.2.2
      cases e2 <;> simpa using hac
    refine ⟨?_, ?_⟩
    · rw [hcount]
      simp [htok]
    · intro ht _
      exact absurd htok ht
  · by_cases hexp : s.expiredTime < w.clock s.clockCount
    · have hcount : (buildAuthHeaders w s).1.authCount = s.authCount + 1 := by
        unfold buildAuthHeaders
        simp only [hanon, if_false, htok, ite_true, if_true, ite_false, hexp,
          decide_True]
        have hst := updateAuth_state w { s with clockCount := s.clockCount + 1 }
        rcases hu : updateAuth w { s with clockCount := s.clockCount + 1 } with ⟨s2, e2⟩
        rw [hu] at hst
        have hac : s2.authCount = s.authCount + 1 := hst.2.2.2.2
        cases e2 <;> simpa using hac
      refine ⟨?_, ?_⟩
      · rw [hcount]
        simp [hexp]
      · intro _ hc
        exact absurd hexp hc
    · have heq := buildAuthHeaders_valid w s hanon htok hexp
      refine ⟨?_, fun _ _ => ?_⟩
      · rw [heq]
        constructor
        · intro hcontr
          exact absurd hcontr (by simp)
        · rintro (hx | hx)
          exacts [absurd hx htok, absurd hx hexp]
      · rw [heq]
        exact ⟨rfl, rfl⟩

/-- Witness for the amended C3 at the boundary state now = expiresAt with
a non-empty token: no refresh, Bearer header returned. -/
theorem C3_amended_witness :
    (buildAuthHeaders exW5 exS5).1.authCount = exS5.authCount
    ∧ (buildAuthHeaders exW5 exS5).2 =
        Except.ok [("Authorization", "Bearer " ++ exS5.authToken)] :=
  (C3_amended_validity_boundary exW5 exS5 (by decide) (by decide)).2
    (by decide) (by decide)

end TdxProxy

namespace TdxProxy

/-- Claim C6: when the first data response of a Get call has a status
outside 200, 304, 401, 429 (given a healthy token endpoint so the attempt
is reached), Get terminates at once with the unexpected-status error
carrying that code, makes no further data attempt, and returns no
response. -/
theorem C6_unexpected_status_terminal (w : World) (url : String)
    (params headers : Option SMap) (s : PState) (c : Nat)
    (hauth : authGood (w.authResp s.authCount) = true)
    (hdata : w.dataResp s.dataCount = some c)
    (h200 : c ≠ 200) (h304 : c ≠ 304) (h401 : c ≠ 401) (h429 : c ≠ 429) :
    (∀ (params' headers' : SMap) (s' : PState) (rc : Nat),
        handleResponse w ⟨c⟩ url params' headers' s' rc =
          (s', none, some (.unexpectedStatus c)))
    ∧ (Get w url params headers s).2.2 = some (.unexpectedStatus c)
    ∧ (Get w url params headers s).2.1 = none
    ∧ (Get w url params headers s).1.dataCount = s.dataCount + 1 := by
  refine ⟨fun params' headers' s' rc => handleResponse_other w url params' headers'
    s' rc c (by rintro (hx | hx); exacts [h200 hx, h304 hx]) h401 h429, ?_⟩
  unfold Get
  rw [requestWithRetry_step w url (effectiveParams params) (headers.getD []) s 0
    (by omega)]
  have hok := buildAuthHeaders_ok_of_good w s hauth
  have hst := buildAuthHeaders_state w s
  rcases hb : buildAuthHeaders w s with ⟨s1, r1⟩
  rw [hb] at hok hst
  obtain ⟨hdrs, hr1⟩ := hok
  simp only at hr1
  subst hr1
  have hd1 : s1.dataCount = s.dataCount := hst.1
  have hdata1 : w.dataResp s1.dataCount = some c := by
    rw [hd1]
    exact hdata
  simp only [hdata1]
  rw [handleResponse_other w url (effectiveParams params) (headers.getD [])
    { s1 with dataCount := s1.dataCount + 1 } 0 c
    (by rintro (hx | hx); exacts [h200 hx, h304 hx]) h401 h429]
  refine ⟨rfl, rfl, ?_⟩
  simp only
  omega

/-- Witness for C6 at a concrete world answering 500. -/
theorem C6_witness :
    (Get exW500 "ep" none none (mkProxy "id" "key" 0)).2.2 =
        some (.unexpectedStatus 500)
    ∧ (Get exW500 "ep" none none (mkProxy "id" "key" 0)).2.1 = none
    ∧ (Get exW500 "ep" none none (mkProxy "id" "key" 0)).1.dataCount =
        (mkProxy "id" "key" 0).dataCount + 1 :=
  (C6_unexpected_status_terminal exW500 "ep" none none (mkProxy "id" "key" 0) 500
    rfl rfl (by decide) (by decide) (by decide) (by decide)).2

/-- Claim C7: the token refresh returns the unexpected-status error for
every non-200 token-endpoint response, and a malformed-response error
when the 200 body lacks a string access_token or a numeric expires_in; in
every failing case the error is returned to the caller and the stored
token and expiry are left unchanged. -/
theorem C7_updateAuth_failure_modes (w : World) (s : PState) :
    (∀ b, w.authResp s.authCount = some b → b.status ≠ 200 →
        (updateAuth w s).2 = some (.authStatus b.status))
    ∧ (∀ b, w.authResp s.authCount = some b → b.status = 200 →
        b.readOk = true → b.parseOk = true → b.accessToken = none →
        (updateAuth w s).2 = some .missingAccessToken)
    ∧ (∀ b tok, w.authResp s.authCount = some b → b.status = 200 →
        b.readOk = true → b.parseOk = true → b.accessToken = some tok →
        b.expiresIn = none →
        (updateAuth w s).2 = some .missingExpiresIn)
    ∧ ((updateAuth w s).2 ≠ none →
        (updateAuth w s).1.authToken = s.authToken
        ∧ (updateAuth w s).1.expiredTime = s.expiredTime) := by
  refine ⟨?_, ?_, ?_, ?_⟩
  · intro b hb hne
    unfold updateAuth
    rw [hb]
    simp [hne]
  · intro b hb h200 hread hparse hnone
    unfold updateAuth
    rw [hb]
    simp [h200, hread, hparse, hnone]
  · intro b tok hb h200 hread hparse htok hnone
    unfold updateAuth
    rw [hb]
    simp [h200, hread, hparse, htok, hnone]
  · intro herr
    unfold updateAuth at herr ⊢
    cases hb : w.authResp s.authCount with
    | none => exact ⟨rfl, rfl⟩
    | some b =>
        rw [hb] at herr
        by_cases h200 : b.status = 200
        · by_cases hread : b.readOk
          · by_cases hparse : b.parseOk
            · cases ht : b.accessToken with
              | none => simp [h200, hread, hparse, ht]
              | some tok =>
                  cases he : b.expiresIn with
                  | none => simp [h200, hread, hparse, ht, he]
                  | some e =>
                      simp [h200, hread, hparse, ht, he] at herr
            · simp [h200, hread, hparse]
          · simp [h200, hread]
        · simp [h200]

/-- Witness for C7 at a token endpoint answering 500: the error carries
the status and the stored token and expiry are unchanged. -/
theorem C7_witness :
    (updateAuth exWBad (mkProxy "id" "key" 7)).2 = some (.authStatus 500)
    ∧ (updateAuth exWBad (mkProxy "id" "key" 7)).1.authToken =
        (mkProxy "id" "key" 7).authToken
    ∧ (updateAuth exWBad (mkProxy "id" "key" 7)).1.expiredTime =
        (mkProxy "id" "key" 7).expiredTime :=
  ⟨(C7_updateAuth_failure_modes exWBad (mkProxy "id" "key" 7)).1
      exBadAuthBody rfl (by decide),
   ((C7_updateAuth_failure_modes exWBad (mkProxy "id" "key" 7)).2.2.2
      (by decide)).1,
   ((C7_updateAuth_failure_modes exWBad (mkProxy "id" "key" 7)).2.2.2
      (by decide)).2⟩

end TdxProxy
